import Mathlib

/-!
Verification of the resolution core of `src/app.py` (a small Flask service
that resolves a video-sharing URL to a direct stream URL and caches the
result).  The Python source is shallowly embedded: pure helpers become Lean
functions, the process-wide `CACHE` dict becomes explicit state passing, the
yt-dlp collaborator becomes an `Except`-valued function parameter, and
exceptions become `Except.error`.  Machine integers are modelled as `Int`
(Python integers are unbounded, so no wrap-around is needed).

Modelling notes, stated once:
* Python `re` classes `\w` and string predicates are modelled at ASCII
  (`Char.isAlphanum`); the URLs and tokens in all claims are ASCII.
* `urllib.parse.unquote_plus` percent-decoding is not modelled: query keys
  and values are taken literally, which agrees with Python on the
  percent-free tokens the claims are about.
-/

namespace YtResolver

/-! ## Identifier Extractor: `extract_video_id` (src/app.py lines 47-52)

The Python code is `re.search(r'(?:v=|be/|shorts/)([\w\-]{11})', url)`.
`re.search` scans positions left to right and at each position tries the
alternatives in order; the three markers start with distinct characters, so
no backtracking between alternatives can occur.  The embedding scans the
character list and at each position tries each marker followed by exactly
eleven word-or-hyphen characters. -/

/-- One character of the class `[\w\-]` (ASCII model of `\w` plus hyphen). -/
def isWordChar (c : Char) : Bool := c.isAlphanum || c == '_' || c == '-'

def markerV : List Char := ['v', '=']

def markerBe : List Char := ['b', 'e', '/']

def markerShorts : List Char := ['s', 'h', 'o', 'r', 't', 's', '/']

/-- The three alternatives of the regex group `(?:v=|be/|shorts/)`. -/
def MarkerList : List (List Char) := [markerV, markerBe, markerShorts]

/-- Matches `([\w\-]{11})` at the start of `rest`, returning the capture. -/
def tokenAfter (rest : List Char) : Option (List Char) :=
  if 11 ≤ rest.length ∧ (rest.take 11).all isWordChar = true then
    some (rest.take 11)
  else none

/-- One attempt of the full pattern anchored at the start of `s`. -/
def matchAt (s : List Char) : Option (List Char) :=
  if markerV.isPrefixOf s then tokenAfter (s.drop 2)
  else if markerBe.isPrefixOf s then tokenAfter (s.drop 3)
  else if markerShorts.isPrefixOf s then tokenAfter (s.drop 7)
  else none

/-- `re.search`: the leftmost position at which the pattern matches. -/
def reSearch : List Char → Option (List Char)
  | [] => none
  | c :: t =>
    match matchAt (c :: t) with
    | some tok => some tok
    | none => reSearch t

/-- `extract_video_id` from src/app.py: the captured group of the leftmost
match, or `none` (Python `None`) when the regex does not match. -/
def extract_video_id (url : String) : Option String :=
  (reSearch url.data).map String.mk

/-- An 11-character token of word characters and hyphens. -/
def IsToken (t : List Char) : Prop := t.length = 11 ∧ t.all isWordChar = true

/-- The input contains one of the three markers immediately followed by an
eleven-character word-or-hyphen token. -/
def ContainsToken (s : List Char) : Prop :=
  ∃ p m t r, m ∈ MarkerList ∧ IsToken t ∧ s = p ++ m ++ t ++ r

theorem tokenAfter_eq_some {rest tok : List Char} (h : tokenAfter rest = some tok) :
    IsToken tok ∧ ∃ r, rest = tok ++ r := by
  unfold tokenAfter at h
  split at h
  · rename_i hc
    obtain ⟨hlen, hall⟩ := hc
    cases h
    constructor
    · exact ⟨by rw [List.length_take]; omega, hall⟩
    · exact ⟨rest.drop 11, (List.take_append_drop 11 rest).symm⟩
  · cases h

theorem tokenAfter_of_token (t r : List Char) (ht : IsToken t) :
    tokenAfter (t ++ r) = some t := by
  obtain ⟨hlen, hall⟩ := ht
  have htake : (t ++ r).take 11 = t := by
    rw [List.take_append_eq_append_take, hlen, Nat.sub_self]
    simp [List.take_of_length_le (le_of_eq hlen)]
  unfold tokenAfter
  rw [if_pos]
  · rw [htake]
  · refine ⟨?_, by rw [htake]; exact hall⟩
    rw [List.length_append, hlen]
    omega

theorem matchAt_eq_some {s tok : List Char} (h : matchAt s = some tok) :
    IsToken tok ∧ ∃ m r, m ∈ MarkerList ∧ s = m ++ tok ++ r := by
  unfold matchAt at h
  split at h
  · rename_i hp
    obtain ⟨r0, hr0⟩ := List.isPrefixOf_iff_prefix.mp hp
    subst hr0
    obtain ⟨ht, r, hr⟩ := tokenAfter_eq_some h
    have hr2 : r0 = tok ++ r := hr
    exact ⟨ht, markerV, r, by simp [MarkerList], by rw [hr2]; simp [markerV]⟩
  · split at h
    · rename_i hp
      obtain ⟨r0, hr0⟩ := List.isPrefixOf_iff_prefix.mp hp
      subst hr0
      obtain ⟨ht, r, hr⟩ := tokenAfter_eq_some h
      have hr2 : r0 = tok ++ r := hr
      exact ⟨ht, markerBe, r, by simp [MarkerList], by rw [hr2]; simp [markerBe]⟩
    · split at h
      · rename_i hp
        obtain ⟨r0, hr0⟩ := List.isPrefixOf_iff_prefix.mp hp
        subst hr0
        obtain ⟨ht, r, hr⟩ := tokenAfter_eq_some h
        have hr2 : r0 = tok ++ r := hr
        exact ⟨ht, markerShorts, r, by simp [MarkerList], by rw [hr2]; simp [markerShorts]⟩
      · cases h

theorem matchAt_of_marker {m : List Char} (t r : List Char)
    (hm : m ∈ MarkerList) (ht : IsToken t) :
    matchAt (m ++ t ++ r) = some t := by
  have htok := tokenAfter_of_token t r ht
  simp only [MarkerList, List.mem_cons, List.not_mem_nil, or_false] at hm
  rcases hm with hm | hm | hm
  all_goals subst hm
  · show matchAt ('v' :: '=' :: (t ++ r)) = some t
    unfold matchAt
    rw [if_pos]
    · exact htok
    · exact List.isPrefixOf_iff_prefix.mpr ⟨t ++ r, rfl⟩
  · show matchAt ('b' :: 'e' :: '/' :: (t ++ r)) = some t
    unfold matchAt
    rw [if_neg, if_pos]
    · exact htok
    · exact List.isPrefixOf_iff_prefix.mpr ⟨t ++ r, rfl⟩
    · rw [show markerV.isPrefixOf ('b' :: 'e' :: '/' :: (t ++ r)) = false from rfl]
      simp
  · show matchAt ('s' :: 'h' :: 'o' :: 'r' :: 't' :: 's' :: '/' :: (t ++ r)) = some t
    unfold matchAt
    rw [if_neg, if_neg, if_pos]
    · exact htok
    · exact List.isPrefixOf_iff_prefix.mpr ⟨t ++ r, rfl⟩
    · rw [show markerBe.isPrefixOf ('s' :: 'h' :: 'o' :: 'r' :: 't' :: 's' :: '/' :: (t ++ r)) = false
        from rfl]
      simp
    · rw [show markerV.isPrefixOf ('s' :: 'h' :: 'o' :: 'r' :: 't' :: 's' :: '/' :: (t ++ r)) = false
        from rfl]
      simp

theorem matchAt_nil : matchAt [] = none := rfl

theorem reSearch_eq_none_iff (s : List Char) :
    reSearch s = none ↔ ∀ i, matchAt (s.drop i) = none := by
  induction s with
  | nil => simp [reSearch, matchAt_nil]
  | cons c t ih =>
    constructor
    · intro h i
      unfold reSearch at h
      cases hm : matchAt (c :: t) with
      | some tok => rw [hm] at h; cases h
      | none =>
        rw [hm] at h
        cases i with
        | zero => simpa using hm
        | succ j => exact (ih.mp h) j
    · intro h
      unfold reSearch
      have h0 : matchAt (c :: t) = none := by simpa using h 0
      rw [h0]
      exact ih.mpr (fun i => by simpa using h (i + 1))

theorem reSearch_eq_some {s tok : List Char} (h : reSearch s = some tok) :
    ∃ i, matchAt (s.drop i) = some tok ∧ ∀ j, j < i → matchAt (s.drop j) = none := by
  induction s with
  | nil => cases h
  | cons c t ih =>
    unfold reSearch at h
    cases hm : matchAt (c :: t) with
    | some tok0 =>
      rw [hm] at h
      cases h
      exact ⟨0, by simpa using hm, fun j hj => absurd hj (Nat.not_lt_zero j)⟩
    | none =>
      rw [hm] at h
      obtain ⟨i, hi, hj⟩ := ih h
      refine ⟨i + 1, by simpa using hi, fun j hjlt => ?_⟩
      cases j with
      | zero => simpa using hm
      | succ k => simpa using hj k (Nat.lt_of_succ_lt_succ hjlt)

theorem reSearch_of_leftmost {s tok : List Char} (i : Nat)
    (hnone : ∀ j, j < i → matchAt (s.drop j) = none)
    (hi : matchAt (s.drop i) = some tok) :
    reSearch s = some tok := by
  induction s generalizing i with
  | nil =>
    rw [List.drop_nil] at hi
    rw [matchAt_nil] at hi
    cases hi
  | cons c t ih =>
    cases i with
    | zero =>
      unfold reSearch
      rw [show (c :: t).drop 0 = c :: t from rfl] at hi
      rw [hi]
    | succ k =>
      have h0 : matchAt (c :: t) = none := by simpa using hnone 0 (Nat.succ_pos k)
      unfold reSearch
      rw [h0]
      exact ih k (fun j hj => by simpa using hnone (j + 1) (Nat.succ_lt_succ hj))
        (by simpa using hi)

theorem containsToken_iff (s : List Char) :
    ContainsToken s ↔ ∃ i tok, matchAt (s.drop i) = some tok := by
  constructor
  · rintro ⟨p, m, t, r, hm, ht, hs⟩
    refine ⟨p.length, t, ?_⟩
    subst hs
    rw [show p ++ m ++ t ++ r = p ++ (m ++ t ++ r) by simp]
    rw [List.drop_left]
    exact matchAt_of_marker t r hm ht
  · rintro ⟨i, tok, hi⟩
    obtain ⟨ht, m, r, hm, hdecomp⟩ := matchAt_eq_some hi
    refine ⟨s.take i, m, tok, r, hm, ht, ?_⟩
    conv_lhs => rw [← List.take_append_drop i s]
    rw [hdecomp]
    simp

/-! ## Data model

`FDict` models one yt-dlp format dictionary as observed by the core: the
keys read by `pick_format` and `extract_stream`.  A missing key is `none`;
Python falsiness of a string key (`None` or `""`) is `truthyStr`. -/

structure FDict where
  url : Option String := none
  vcodec : Option String := none
  acodec : Option String := none
  protocol : Option String := none
  ext : Option String := none
  height : Option Int := none
  format_note : Option String := none
deriving DecidableEq

/-- The yt-dlp `info` dict: the `formats` list, the `requested_formats`
list, and the top-level keys of `info` itself (read when `pick_format`
returns `info` as the chosen dict). -/
structure Info where
  formats : List FDict := []
  requested_formats : List FDict := []
  self : FDict := {}
deriving DecidableEq

/-- Python truthiness of an optional string: `None` and `""` are falsy. -/
def truthyStr (o : Option String) : Bool := !(o.getD "" == "")

/-! ## Format Selector: `pick_format` (src/app.py lines 55-95) -/

/-- Python `str.lower()` (ASCII model), implemented on the character
list so that proofs can evaluate it. -/
def lowerStr (s : String) : String := String.mk (s.data.map Char.toLower)

/-- Python `str.strip()`: drop whitespace from both ends. -/
def pyStrip (s : String) : String :=
  String.mk
    (((s.data.dropWhile Char.isWhitespace).reverse.dropWhile Char.isWhitespace).reverse)

/-- `qs.split('&')` on the character list. -/
def splitAmp : List Char → List Char → List (List Char)
  | [], acc => [acc.reverse]
  | c :: t, acc =>
    if c = '&' then acc.reverse :: splitAmp t [] else splitAmp t (c :: acc)

/-- `f.get("ext").lower() == "mp4"` from the score computation. -/
def extIsMp4 (f : FDict) : Bool := lowerStr (f.ext.getD "") == "mp4"

/-- `vcodec.startswith("avc") or "h264" in vcodec` from the score
computation (Python substring containment on the lowered codec). -/
def hasSeq (needle : List Char) : List Char → Bool
  | [] => needle.isEmpty
  | c :: t => needle.isPrefixOf (c :: t) || hasSeq needle t

def isH264 (f : FDict) : Bool :=
  ("avc".data.isPrefixOf (lowerStr (f.vcodec.getD "")).data)
    || hasSeq "h264".data (lowerStr (f.vcodec.getD "")).data

/-- A candidate enters the scoring loop: it has a truthy `url`, both codecs
are not `"none"`, and the protocol starts with `"http"`. -/
def qualifies (f : FDict) : Bool :=
  truthyStr f.url
    && !(lowerStr (f.vcodec.getD "") == "none")
    && !(lowerStr (f.acodec.getD "") == "none")
    && ("http".data.isPrefixOf (lowerStr (f.protocol.getD "")).data)

/-- The score of a qualifying candidate: `+10` for mp4 extension, `+10` for
an H.264 video codec, plus the height capped at 2160. -/
def fmtScore (f : FDict) : Int :=
  (if extIsMp4 f then 10 else 0)
    + (if isH264 f then 10 else 0)
    + min (f.height.getD 0) 2160

/-- `candidates.sort(key=score, reverse=True); candidates[0]`: Python's sort
is stable, so the head of the sorted list is the first candidate attaining
the maximal score.  This embeds that observable: keep the earlier candidate
unless a later one scores strictly higher. -/
def pickBest : List FDict → Option FDict
  | [] => none
  | f :: fs =>
    match pickBest fs with
    | none => some f
    | some g => if fmtScore f < fmtScore g then some g else some f

/-- `pick_format` from src/app.py: best qualifying candidate, else the first
`requested_formats` entry with a truthy url, else `info` itself when its
top-level url is truthy, else `None`. -/
def pick_format (info : Info) : Option FDict :=
  match pickBest (info.formats.filter qualifies) with
  | some f => some f
  | none =>
    match info.requested_formats.find? (fun f => truthyStr f.url) with
    | some f => some f
    | none => if truthyStr info.self.url then some info.self else none

/-! ## Expiry Resolver (src/app.py lines 130-136)

`urllib.parse.urlparse(stream_url).query` and `parse_qs`, followed by
`int(qs["expire"][0])` with `int(time.time()) + 3600` as fallback. -/

/-- `urlparse(url).query`: the part after the first `?` of the part before
the first `#`. -/
def urlQuery (url : String) : String :=
  match (url.data.takeWhile (fun c => c != '#')).dropWhile (fun c => c != '?') with
  | [] => ""
  | _ :: rest => String.mk rest

/-- One `key=value` item of `parse_qsl`: pairs without `=` or with an empty
value are dropped (`keep_blank_values` is false).  Percent-decoding is not
modelled (see the header note). -/
def parseQsPair (s : String) : Option (String × String) :=
  match s.data.dropWhile (fun c => c != '=') with
  | [] => none
  | _ :: v =>
    if v = [] then none
    else some (String.mk (s.data.takeWhile (fun c => c != '=')), String.mk v)

/-- `parse_qsl(query)` as the ordered list of key-value pairs; `parse_qs`
groups these by key preserving order, so `qs[k][0]` is the first value. -/
def parse_qsl (query : String) : List (String × String) :=
  ((splitAmp query.data []).map String.mk).filterMap parseQsPair

/-- `k in qs` and `qs[k][0]` combined: the first value under key `k`. -/
def qsFirst (pairs : List (String × String)) (k : String) : Option String :=
  (pairs.find? (fun p => p.1 == k)).map Prod.snd

/-- Digits of a Python integer literal after the first digit: underscores
are allowed only singly and between digits. -/
def pyDigitsAux : List Char → Nat → Option Nat
  | [], acc => some acc
  | '_' :: rest, acc =>
    match rest with
    | [] => none
    | c :: rest2 =>
      if c.isDigit then pyDigitsAux rest2 (acc * 10 + (c.toNat - 48)) else none
  | c :: rest, acc =>
    if c.isDigit then pyDigitsAux rest (acc * 10 + (c.toNat - 48)) else none

/-- An unsigned run of digits (with legal underscores), or `none`. -/
def pyNat (l : List Char) : Option Nat :=
  match l with
  | [] => none
  | c :: rest => if c.isDigit then pyDigitsAux rest (c.toNat - 48) else none

/-- Python `int(s)` on a decimal string: strips whitespace, accepts an
optional sign, and raises (here: `none`) on anything else. -/
def pyInt (s : String) : Option Int :=
  match ((s.data.dropWhile Char.isWhitespace).reverse.dropWhile Char.isWhitespace).reverse with
  | '+' :: rest => (pyNat rest).map (fun n => (n : Int))
  | '-' :: rest => (pyNat rest).map (fun n => -(n : Int))
  | rest => (pyNat rest).map (fun n => (n : Int))

/-- The expiry computation of `extract_stream`: the `expire` query parameter
of the chosen URL when present (a `ValueError` from `int` becomes
`Except.error`), else `now + 3600`. -/
def resolveExpiry (accessURL : String) (observedAt : Int) : Except String Int :=
  match qsFirst (parse_qsl (urlQuery accessURL)) "expire" with
  | some v =>
    match pyInt v with
    | some n => Except.ok n
    | none => Except.error ("invalid literal for int() with base 10: " ++ v)
  | none => Except.ok (observedAt + 3600)

/-! ## `extract_stream` (src/app.py lines 98-141)

The yt-dlp call `ydl.extract_info` is the external collaborator, passed in
as a function returning either an info dict or an exception message. -/

/-- `chosen.get("format_note") or chosen.get("height") or "unknown"`,
then `str(...)`. -/
def chooseQuality (chosen : FDict) : String :=
  match chosen.format_note with
  | some s =>
    if s ≠ "" then s
    else match chosen.height with
      | some h => if h ≠ 0 then toString h else "unknown"
      | none => "unknown"
  | none =>
    match chosen.height with
    | some h => if h ≠ 0 then toString h else "unknown"
    | none => "unknown"

/-- `ext = (chosen.get("ext") or "mp4").lower()` and the MIME string. -/
def mimeOf (chosen : FDict) : String :=
  let e0 := chosen.ext.getD ""
  let ext := lowerStr (if e0 = "" then "mp4" else e0)
  if ext = "mp4" then "video/mp4" else "video/" ++ ext

/-- `extract_stream` from src/app.py: returns
`(stream_url, expires_at, quality, mime)` or the message of the raised
exception.  `chosen["url"]` on a dict without the key raises `KeyError`. -/
def extract_stream (extractInfo : String → Except String Info) (now : Int)
    (url : String) : Except String (String × Int × String × String) :=
  match extractInfo url with
  | Except.error e => Except.error e
  | Except.ok info =>
    match pick_format info with
    | none => Except.error "No hay formato progresivo compatible"
    | some chosen =>
      match chosen.url with
      | none => Except.error "KeyError: url"
      | some stream_url =>
        match resolveExpiry stream_url now with
        | Except.error e => Except.error e
        | Except.ok expires_at =>
          Except.ok (stream_url, expires_at, chooseQuality chosen, mimeOf chosen)

/-! ## Resolution Orchestrator: `resolve` (src/app.py lines 152-187) -/

/-- The cached payload dict (the `ResolvedStream` of the spec). -/
structure Payload where
  videoId : String
  streamUrl : String
  expiresAt : Int
  quality : String
  mime : String
  graceSeconds : Int
deriving DecidableEq

def REFRESH_GRACE_SECONDS : Int := 30 * 60

/-- The freshness test of the cache check on line 170:
`hit["expiresAt"] - now > REFRESH_GRACE_SECONDS`. -/
def isFresh (entry : Payload) (now grace : Int) : Bool :=
  entry.expiresAt - now > grace

/-- The HTTP responses produced by the `/resolve` handler. -/
inductive Response where
  | ok (payload : Payload) : Response
  | clientErr (error : String) : Response
  | serverErr (error : String) (detail : String) : Response
deriving DecidableEq

def Response.status : Response → Nat
  | Response.ok _ => 200
  | Response.clientErr _ => 400
  | Response.serverErr _ _ => 500

/-- The process-wide `CACHE` dict. -/
def Cache : Type := String → Option Payload

/-- `CACHE[vid] = payload`. -/
def cacheWrite (cache : Cache) (vid : String) (p : Payload) : Cache :=
  fun k => if k = vid then some p else cache k

/-- Result of one request: the response, the cache afterwards, and whether
the extraction collaborator was invoked. -/
structure ResolveOutcome where
  response : Response
  cache : Cache
  extractorCalled : Bool

/-- The miss-or-stale path of `resolve`: call `extract_stream`, map an
exception to a 500, else build the payload and write it to the cache. -/
def refreshResolve (extractInfo : String → Except String Info) (now : Int)
    (url vid : String) (cache : Cache) : ResolveOutcome :=
  match extract_stream extractInfo now url with
  | Except.error e => ⟨Response.serverErr "resolve_failed" e, cache, true⟩
  | Except.ok (stream_url, expires_at, quality, mime) =>
    let payload : Payload :=
      ⟨vid, stream_url, expires_at, quality, mime, REFRESH_GRACE_SECONDS⟩
    ⟨Response.ok payload, cacheWrite cache vid payload, true⟩

/-- The `/resolve` handler.  `body` is the (optional) `url` field of the
request JSON: `none` models an absent or falsy field, matching
`(data.get("url") or "").strip()`. -/
def resolve (extractInfo : String → Except String Info) (now : Int)
    (body : Option String) (cache : Cache) : ResolveOutcome :=
  if pyStrip (body.getD "") = "" then ⟨Response.clientErr "missing_url", cache, false⟩
  else
    match extract_video_id (pyStrip (body.getD "")) with
    | none => ⟨Response.clientErr "invalid_youtube_url", cache, false⟩
    | some vid =>
      match cache vid with
      | some hit =>
        if isFresh hit now REFRESH_GRACE_SECONDS then ⟨Response.ok hit, cache, false⟩
        else refreshResolve extractInfo now (pyStrip (body.getD "")) vid cache
      | none => refreshResolve extractInfo now (pyStrip (body.getD "")) vid cache

/-! ## Spec-side definition for claim C2

The claimed shape of the progressive score: a flat MP4 bonus, a strictly
larger H.264 bonus, the capped height, and a flat high-definition bonus for
heights of at least 720.  This definition follows the claim's words, to be
compared against `fmtScore` from the source. -/

/-- The claimed scoring shape, parameterised by the three claimed flat
bonuses; holds when every qualifying candidate's source score decomposes
this way. -/
def specC2ScoreShape (mp4Bonus h264Bonus hdBonus : Int) : Prop :=
  ∀ f : FDict, qualifies f = true →
    fmtScore f =
      (if extIsMp4 f then mp4Bonus else 0)
        + (if isH264 f then h264Bonus else 0)
        + min (f.height.getD 0) 2160
        + (if 720 ≤ f.height.getD 0 then hdBonus else 0)

/-! ## Concrete instances used to instantiate the theorems -/

def emptyCache : Cache := fun _ => none

/-- Progressive 1080p candidate: mp4 container, non-H.264 codec. -/
def cand1080mp4vp9 : FDict :=
  { url := some "u1", vcodec := some "vp9", acodec := some "opus",
    protocol := some "https", ext := some "mp4", height := some 1080 }

/-- Progressive 1080p candidate: webm container, H.264 codec. -/
def cand1080avcWebm : FDict :=
  { url := some "u2", vcodec := some "avc1.4d401f", acodec := some "mp4a.40.2",
    protocol := some "https", ext := some "webm", height := some 1080 }

/-- Progressive 1080p candidate: neither mp4 nor H.264. -/
def cand1080plain : FDict :=
  { url := some "u3", vcodec := some "vp9", acodec := some "opus",
    protocol := some "https", ext := some "webm", height := some 1080 }

/-- Progressive 1080p candidate: mp4 and H.264. -/
def cand1080mp4avc : FDict :=
  { url := some "u4", vcodec := some "avc1.64002a", acodec := some "mp4a.40.2",
    protocol := some "https", ext := some "mp4", height := some 1080 }

def infoC2 : Info := { formats := [cand1080plain, cand1080mp4avc] }

def payC1 : Payload := ⟨"id", "u", 100, "q", "m", 0⟩

/-- Candidate whose URL carries a non-numeric `expire` value. -/
def fdExpireAbc : FDict :=
  { url := some "https://cdn.example/video?expire=abc", vcodec := some "avc1",
    acodec := some "mp4a", protocol := some "https", ext := some "mp4",
    height := some 720 }

def eiExpireAbc : String → Except String Info :=
  fun _ => Except.ok { formats := [fdExpireAbc] }

/-- Candidate whose URL carries `expire=0`, an expiry in the past. -/
def fdExpireZero : FDict :=
  { url := some "https://cdn.example/video?expire=0", vcodec := some "avc1",
    acodec := some "mp4a", protocol := some "https", ext := some "mp4",
    height := some 720, format_note := some "720p" }

def eiExpireZero : String → Except String Info :=
  fun _ => Except.ok { formats := [fdExpireZero] }

/-- Candidate whose URL carries no `expire` parameter. -/
def fdNoExpire : FDict :=
  { url := some "https://cdn.example/plain", vcodec := some "avc1",
    acodec := some "mp4a", protocol := some "https", ext := some "mp4",
    height := some 360 }

def eiNoExpire : String → Except String Info :=
  fun _ => Except.ok { formats := [fdNoExpire] }

/-- Extraction result with one candidate lacking a URL and no fallbacks. -/
def infoAllRejected : Info := { formats := [{ vcodec := some "vp9" }] }

def eiAllRejected : String → Except String Info := fun _ => Except.ok infoAllRejected

/-- Collaborator that must not be reached; used for cache-hit scenarios. -/
def eiUnreachable : String → Except String Info :=
  fun _ => Except.error "collaborator invoked"

def payC7 : Payload :=
  ⟨"dQw4w9WgXcQ", "https://cdn.example/s", 1000000, "720p", "video/mp4", 1800⟩

def cacheC7 : Cache := fun k => if k = "dQw4w9WgXcQ" then some payC7 else none

/-! ## Helper lemmas shared by the claim theorems -/

theorem bool_ne_true_of_eq_false {b : Bool} (h : b = false) : ¬ (b = true) := by
  rw [h]
  exact Bool.false_ne_true

theorem resolveExpiry_ok {u : String} {t x : Int}
    (h : resolveExpiry u t = Except.ok x) :
    (∃ v, qsFirst (parse_qsl (urlQuery u)) "expire" = some v ∧ pyInt v = some x)
      ∨ (qsFirst (parse_qsl (urlQuery u)) "expire" = none ∧ x = t + 3600) := by
  unfold resolveExpiry at h
  split at h
  · rename_i v hq
    split at h
    · rename_i n hp
      left
      injection h with hx
      exact ⟨v, hq, hx ▸ hp⟩
    · cases h
  · rename_i hq
    right
    injection h with hx
    exact ⟨hq, hx.symm⟩

theorem extract_stream_ok {ei : String → Except String Info} {now : Int}
    {url s q m : String} {x : Int}
    (h : extract_stream ei now url = Except.ok (s, x, q, m)) :
    ∃ info chosen, ei url = Except.ok info ∧ pick_format info = some chosen
      ∧ chosen.url = some s ∧ resolveExpiry s now = Except.ok x
      ∧ q = chooseQuality chosen ∧ m = mimeOf chosen := by
  unfold extract_stream at h
  split at h
  · cases h
  · rename_i info hei
    split at h
    · cases h
    · rename_i chosen hpf
      split at h
      · cases h
      · rename_i stream_url hcu
        split at h
        · cases h
        · rename_i expires_at hre
          injection h with h1
          injection h1 with hs h2
          injection h2 with hx h3
          injection h3 with hq hm
          subst hs; subst hx; subst hq; subst hm
          exact ⟨info, chosen, hei, hpf, hcu, hre, rfl, rfl⟩

/-- Exhaustive case analysis of one `resolve` request. -/
theorem resolve_spec (ei : String → Except String Info) (now : Int)
    (body : Option String) (cache : Cache) (url : String)
    (hurl : pyStrip (body.getD "") = url) :
    (url = "" ∧ resolve ei now body cache = ⟨Response.clientErr "missing_url", cache, false⟩)
    ∨ (url ≠ "" ∧ extract_video_id url = none
        ∧ resolve ei now body cache = ⟨Response.clientErr "invalid_youtube_url", cache, false⟩)
    ∨ (∃ vid hit, url ≠ "" ∧ extract_video_id url = some vid ∧ cache vid = some hit
        ∧ isFresh hit now REFRESH_GRACE_SECONDS = true
        ∧ resolve ei now body cache = ⟨Response.ok hit, cache, false⟩)
    ∨ (∃ vid e, url ≠ "" ∧ extract_video_id url = some vid
        ∧ (∀ hit, cache vid = some hit → isFresh hit now REFRESH_GRACE_SECONDS = false)
        ∧ extract_stream ei now url = Except.error e
        ∧ resolve ei now body cache = ⟨Response.serverErr "resolve_failed" e, cache, true⟩)
    ∨ (∃ vid s x q m, url ≠ "" ∧ extract_video_id url = some vid
        ∧ (∀ hit, cache vid = some hit → isFresh hit now REFRESH_GRACE_SECONDS = false)
        ∧ extract_stream ei now url = Except.ok (s, x, q, m)
        ∧ resolve ei now body cache =
            ⟨Response.ok ⟨vid, s, x, q, m, REFRESH_GRACE_SECONDS⟩,
             cacheWrite cache vid ⟨vid, s, x, q, m, REFRESH_GRACE_SECONDS⟩, true⟩) := by
  by_cases h0 : url = ""
  · left
    refine ⟨h0, ?_⟩
    unfold resolve
    rw [hurl, if_pos h0]
  · have hbranch : ∀ vid, extract_video_id url = some vid →
        (∀ hit, cache vid = some hit → isFresh hit now REFRESH_GRACE_SECONDS = false) →
        resolve ei now body cache = refreshResolve ei now url vid cache := by
      intro vid hv hmiss
      unfold resolve
      rw [hurl, if_neg h0]
      simp only [hv]
      cases hc : cache vid with
      | none => rfl
      | some hit =>
        show (if isFresh hit now REFRESH_GRACE_SECONDS = true then
            ({ response := Response.ok hit, cache := cache, extractorCalled := false } :
              ResolveOutcome)
          else refreshResolve ei now url vid cache) = refreshResolve ei now url vid cache
        rw [if_neg (bool_ne_true_of_eq_false (hmiss hit hc))]
    cases hv : extract_video_id url with
    | none =>
      right; left
      refine ⟨h0, rfl, ?_⟩
      unfold resolve
      rw [hurl, if_neg h0]
      simp only [hv]
    | some vid =>
      cases hc : cache vid with
      | some hit =>
        by_cases hfr : isFresh hit now REFRESH_GRACE_SECONDS = true
        · right; right; left
          refine ⟨vid, hit, h0, rfl, hc, hfr, ?_⟩
          unfold resolve
          rw [hurl, if_neg h0]
          simp only [hv, hc]
          rw [if_pos hfr]
        · have hmiss : ∀ h1, cache vid = some h1 →
              isFresh h1 now REFRESH_GRACE_SECONDS = false := by
            intro h1 hh
            rw [hc] at hh
            injection hh with hh
            subst hh
            exact Bool.eq_false_iff.mpr hfr
          have hrr := hbranch vid hv hmiss
          cases hes : extract_stream ei now url with
          | error e =>
            right; right; right; left
            refine ⟨vid, e, h0, rfl, hmiss, rfl, ?_⟩
            rw [hrr]
            unfold refreshResolve
            rw [hes]
          | ok tup =>
            obtain ⟨s, x, q, m⟩ := tup
            right; right; right; right
            refine ⟨vid, s, x, q, m, h0, rfl, hmiss, rfl, ?_⟩
            rw [hrr]
            unfold refreshResolve
            rw [hes]
      | none =>
        have hmiss : ∀ h1, cache vid = some h1 →
            isFresh h1 now REFRESH_GRACE_SECONDS = false := by
          intro h1 hh
          rw [hc] at hh
          cases hh
        have hrr := hbranch vid hv hmiss
        cases hes : extract_stream ei now url with
        | error e =>
          right; right; right; left
          refine ⟨vid, e, h0, rfl, hmiss, rfl, ?_⟩
          rw [hrr]
          unfold refreshResolve
          rw [hes]
        | ok tup =>
          obtain ⟨s, x, q, m⟩ := tup
          right; right; right; right
          refine ⟨vid, s, x, q, m, h0, rfl, hmiss, rfl, ?_⟩
          rw [hrr]
          unfold refreshResolve
          rw [hes]

/-! ## Claim theorems -/

/-- Claim C1: the freshness check is a strict inequality — a cached entry is
fresh iff `expiryTime - now > graceSeconds`, and an entry whose remaining
lifetime exactly equals the grace period is not fresh. -/
theorem claim_C1_isFresh_strict (entry : Payload) (now grace : Int) :
    (isFresh entry now grace = true ↔ grace < entry.expiresAt - now)
      ∧ (entry.expiresAt - now = grace → isFresh entry now grace = false) := by
  constructor
  · unfold isFresh
    exact decide_eq_true_iff
  · intro h
    unfold isFresh
    rw [h]
    simp

/-- Witness for C1 at a concrete entry whose remaining lifetime equals the
grace value: it is not fresh. -/
theorem claim_C1_witness : isFresh payC1 0 100 = false :=
  (claim_C1_isFresh_strict payC1 0 100).2 (by decide)

/-- Claim C3: `extract_video_id` returns `none` exactly when the URL has no
marker followed by an 11-character word/hyphen token, and any returned token
is such a token occurring right after a marker in the URL. -/
theorem claim_C3_extract_identifier (s tok : String) :
    (extract_video_id s = none ↔ ¬ ContainsToken s.data)
      ∧ (extract_video_id s = some tok →
          ∃ p m r, m ∈ MarkerList ∧ IsToken tok.data ∧ s.data = p ++ m ++ tok.data ++ r) := by
  constructor
  · constructor
    · intro h hC
      have hnone : reSearch s.data = none := by
        cases hr : reSearch s.data with
        | none => rfl
        | some l => unfold extract_video_id at h; rw [hr] at h; cases h
      obtain ⟨i, tk, hit⟩ := (containsToken_iff s.data).mp hC
      have := (reSearch_eq_none_iff s.data).mp hnone i
      rw [hit] at this
      cases this
    · intro hnc
      have : reSearch s.data = none := by
        apply (reSearch_eq_none_iff s.data).mpr
        intro i
        cases hm : matchAt (s.data.drop i) with
        | none => rfl
        | some tk => exact absurd ((containsToken_iff s.data).mpr ⟨i, tk, hm⟩) hnc
      unfold extract_video_id
      rw [this]
      rfl
  · intro h
    unfold extract_video_id at h
    cases hr : reSearch s.data with
    | none => rw [hr] at h; cases h
    | some l =>
      rw [hr] at h
      have hl : String.mk l = tok := by injection h
      subst hl
      obtain ⟨i, hi, _⟩ := reSearch_eq_some hr
      obtain ⟨ht, m, r, hm, hd⟩ := matchAt_eq_some hi
      refine ⟨s.data.take i, m, r, hm, ht, ?_⟩
      conv_lhs => rw [← List.take_append_drop i s.data]
      rw [hd]
      simp

/-- Witness for C3: a short-link URL yields its 11-character token, and the
token indeed follows a marker in the URL. -/
theorem claim_C3_witness :
    ∃ p m r, m ∈ MarkerList ∧ IsToken ("dQw4w9WgXcQ" : String).data
      ∧ ("https://youtu.be/dQw4w9WgXcQ" : String).data
          = p ++ m ++ ("dQw4w9WgXcQ" : String).data ++ r :=
  (claim_C3_extract_identifier "https://youtu.be/dQw4w9WgXcQ" "dQw4w9WgXcQ").2 (by rfl)

/-- Claim C10: matching is positional, not host-aware, and prefix-taking:
whenever the first marker occurrence that is followed by at least 11
word/hyphen characters sits after prefix `p` (no full match occurs earlier),
`extract_video_id` returns exactly the first 11 of those characters. -/
theorem claim_C10_prefix_match (s : String) (p m u r : List Char)
    (hm : m ∈ MarkerList) (hu : 11 ≤ u.length) (hw : u.all isWordChar = true)
    (hs : s.data = p ++ m ++ u ++ r)
    (hbefore : ∀ j, j < p.length → matchAt (s.data.drop j) = none) :
    extract_video_id s = some (String.mk (u.take 11)) := by
  have htok : IsToken (u.take 11) := by
    refine ⟨by rw [List.length_take]; omega, ?_⟩
    apply List.all_eq_true.mpr
    intro c hc
    exact List.all_eq_true.mp hw c (List.take_subset 11 u hc)
  have hdecomp : s.data = p ++ m ++ u.take 11 ++ (u.drop 11 ++ r) := by
    rw [hs]
    conv_lhs => rw [← List.take_append_drop 11 u]
    simp only [List.append_assoc]
  have hmatch : matchAt (s.data.drop p.length) = some (u.take 11) := by
    rw [hdecomp]
    rw [show p ++ m ++ u.take 11 ++ (u.drop 11 ++ r)
        = p ++ (m ++ u.take 11 ++ (u.drop 11 ++ r)) by simp [List.append_assoc]]
    rw [List.drop_left]
    exact matchAt_of_marker (u.take 11) (u.drop 11 ++ r) hm htok
  unfold extract_video_id
  rw [reSearch_of_leftmost p.length hbefore hmatch]
  rfl

/-- Witness for C10: the marker needs no URL structure around it and a
longer token is cut to 11 characters, not rejected. -/
theorem claim_C10_witness :
    extract_video_id "xv=abcdefghijklmnop"
      = some (String.mk (("abcdefghijklmnop" : String).data.take 11)) :=
  claim_C10_prefix_match "xv=abcdefghijklmnop" ['x'] markerV
    ("abcdefghijklmnop" : String).data [] (by simp [MarkerList]) (by decide) (by decide)
    (by decide) (by
      intro j hj
      have hz : j = 0 := Nat.lt_one_iff.mp hj
      subst hz
      decide)

/-- Claim C4 counterexample: the Expiry Resolver is not total — a URL whose
`expire` query value is non-numeric makes `int()` raise, and the exception
propagates to a 500 `resolve_failed` response. -/
theorem claim_C4_counterexample :
    resolveExpiry "https://cdn.example/video?expire=abc" 0
        = Except.error "invalid literal for int() with base 10: abc"
      ∧ (resolve eiExpireAbc 0 (some "https://youtu.be/abcdefghijk") emptyCache).response
        = Response.serverErr "resolve_failed" "invalid literal for int() with base 10: abc" := by
  exact ⟨rfl, rfl⟩

/-- Claim C4 as amended: the Expiry Resolver returns the integer value of a
present-and-numeric `expire` parameter and `observedAt + 3600` when the
parameter is absent; it fails exactly when `expire` is present but does not
parse as an integer. -/
theorem claim_C4_amended (url : String) (t : Int) :
    ((∃ n, resolveExpiry url t = Except.ok n) ↔
        ∀ v, qsFirst (parse_qsl (urlQuery url)) "expire" = some v → (pyInt v).isSome = true)
      ∧ (qsFirst (parse_qsl (urlQuery url)) "expire" = none →
          resolveExpiry url t = Except.ok (t + 3600))
      ∧ (∀ v n, qsFirst (parse_qsl (urlQuery url)) "expire" = some v → pyInt v = some n →
          resolveExpiry url t = Except.ok n) := by
  refine ⟨⟨?_, ?_⟩, ?_, ?_⟩
  · rintro ⟨n, hn⟩ v hv
    rcases resolveExpiry_ok hn with ⟨v2, hv2, hp2⟩ | ⟨hnone, _⟩
    · rw [hv] at hv2
      injection hv2 with he
      rw [← he] at hp2
      rw [hp2]
      rfl
    · rw [hv] at hnone
      cases hnone
  · intro hall
    unfold resolveExpiry
    cases hq : qsFirst (parse_qsl (urlQuery url)) "expire" with
    | none => exact ⟨t + 3600, rfl⟩
    | some v =>
      have := hall v hq
      cases hp : pyInt v with
      | none => rw [hp] at this; cases this
      | some n =>
        refine ⟨n, ?_⟩
        simp only [hq, hp]
  · intro hq
    unfold resolveExpiry
    simp only [hq]
  · intro v n hq hp
    unfold resolveExpiry
    simp only [hq, hp]

/-- Witness for C4 amended: a URL without an `expire` parameter resolves to
the observation time plus one hour. -/
theorem claim_C4_amended_witness :
    resolveExpiry "https://cdn.example/plain" 7 = Except.ok 3607 :=
  (claim_C4_amended "https://cdn.example/plain" 7).2.1 (by rfl)

/-- Claim C2 counterexample: the source score cannot be decomposed as the
claim demands — there are no bonuses with the H.264 bonus strictly larger
than the MP4 bonus (plus a positive high-definition bonus), because the code
awards the same `+10` for both and has no `≥ 720` bonus at all. -/
theorem claim_C2_counterexample :
    ¬ ∃ mp4Bonus h264Bonus hdBonus : Int,
        mp4Bonus < h264Bonus ∧ 0 < hdBonus
          ∧ specC2ScoreShape mp4Bonus h264Bonus hdBonus := by
  rintro ⟨a, b, c, hab, _, hpol⟩
  have h1 := hpol cand1080mp4vp9 (by decide)
  have h2 := hpol cand1080avcWebm (by decide)
  rw [show fmtScore cand1080mp4vp9 = 1090 from by decide,
      if_pos (show extIsMp4 cand1080mp4vp9 = true from by decide),
      if_neg (show ¬ (isH264 cand1080mp4vp9 = true) from by decide),
      show min ((cand1080mp4vp9.height).getD 0) 2160 = 1080 from by decide,
      if_pos (show (720 : Int) ≤ (cand1080mp4vp9.height).getD 0 from by decide)] at h1
  rw [show fmtScore cand1080avcWebm = 1090 from by decide,
      if_neg (show ¬ (extIsMp4 cand1080avcWebm = true) from by decide),
      if_pos (show isH264 cand1080avcWebm = true from by decide),
      show min ((cand1080avcWebm.height).getD 0) 2160 = 1080 from by decide,
      if_pos (show (720 : Int) ≤ (cand1080avcWebm.height).getD 0 from by decide)] at h2
  omega

/-- Claim C2 as amended: in the progressive branch the MP4 bonus and the
H.264 bonus are both exactly 10 (equal, not larger), the height is capped at
2160, and there is no additional ≥720p bonus; the stated consequence still
holds — between two progressive 1080p candidates of which exactly one is MP4
with H.264, that one wins by 20 points and is selected. -/
theorem claim_C2_amended (f g : FDict) (info : Info)
    (hf : qualifies f = true) (hg : qualifies g = true)
    (hfh : f.height.getD 0 = 1080) (hgh : g.height.getD 0 = 1080)
    (hfm : extIsMp4 f = false) (hfa : isH264 f = false)
    (hgm : extIsMp4 g = true) (hga : isH264 g = true)
    (hformats : info.formats = [f, g]) :
    fmtScore g = fmtScore f + 20 ∧ pick_format info = some g := by
  have hsf : fmtScore f = 1080 := by
    unfold fmtScore
    rw [hfm, hfa, hfh]
    decide
  have hsg : fmtScore g = 1100 := by
    unfold fmtScore
    rw [hgm, hga, hgh]
    decide
  have hfilter : List.filter qualifies [f, g] = [f, g] := by
    simp [List.filter_cons, hf, hg]
  have hpb : pickBest [f, g] = some g := by
    simp only [pickBest]
    rw [hsf, hsg]
    rw [if_pos (show (1080 : Int) < 1100 from by decide)]
  constructor
  · rw [hsf, hsg]
    decide
  · unfold pick_format
    rw [hformats, hfilter, hpb]

/-- Witness for C2 amended at two concrete 1080p progressive candidates. -/
theorem claim_C2_witness :
    fmtScore cand1080mp4avc = fmtScore cand1080plain + 20
      ∧ pick_format infoC2 = some cand1080mp4avc :=
  claim_C2_amended cand1080plain cand1080mp4avc infoC2 (by decide) (by decide)
    (by decide) (by decide) (by decide) (by decide) (by decide) (by decide) rfl

/-- Claim C5: when no candidate scores, selection falls back to the first
requested-formats entry with a URL, then to the top-level result URL, then
to `none`, which the orchestrator surfaces as a 500 `resolve_failed`. -/
theorem claim_C5_fallback_order (info : Info)
    (h : ∀ f ∈ info.formats, qualifies f = false) :
    (∀ f, info.requested_formats.find? (fun x => truthyStr x.url) = some f →
        pick_format info = some f)
      ∧ (info.requested_formats.find? (fun x => truthyStr x.url) = none →
          truthyStr info.self.url = true → pick_format info = some info.self)
      ∧ (info.requested_formats.find? (fun x => truthyStr x.url) = none →
          truthyStr info.self.url = false → pick_format info = none)
      ∧ (pick_format info = none → ∀ ei now body cache url vid,
          ei url = Except.ok info → pyStrip (body.getD "") = url → url ≠ "" →
          extract_video_id url = some vid →
          (∀ hit, cache vid = some hit → isFresh hit now REFRESH_GRACE_SECONDS = false) →
          (resolve ei now body cache).response
            = Response.serverErr "resolve_failed" "No hay formato progresivo compatible"
          ∧ ((resolve ei now body cache).response).status = 500) := by
  have hfilter : info.formats.filter qualifies = [] := by
    apply List.filter_eq_nil_iff.mpr
    intro a ha
    exact bool_ne_true_of_eq_false (h a ha)
  refine ⟨?_, ?_, ?_, ?_⟩
  · intro f hf
    simp only [pick_format, hfilter, pickBest, hf]
  · intro hnone hself
    simp only [pick_format, hfilter, pickBest, hnone]
    rw [if_pos hself]
  · intro hnone hself
    simp only [pick_format, hfilter, pickBest, hnone]
    rw [if_neg (bool_ne_true_of_eq_false hself)]
  · intro hpf ei now body cache url vid hei hurl hne hvid hmiss
    have hx : extract_stream ei now url
        = Except.error "No hay formato progresivo compatible" := by
      unfold extract_stream
      simp only [hei, hpf]
    rcases resolve_spec ei now body cache url hurl with ⟨he, _⟩ | ⟨_, hvn, _⟩ |
      ⟨vid2, hit, _, hv2, hc2, hfr2, _⟩ | ⟨vid2, e, _, hv2, _, hes, hout⟩ |
      ⟨vid2, s, x, q, m, _, hv2, _, hes, hout⟩
    · exact absurd he hne
    · rw [hvid] at hvn; cases hvn
    · rw [hvid] at hv2
      injection hv2 with h2
      subst h2
      have := hmiss hit hc2
      rw [hfr2] at this
      cases this
    · rw [hx] at hes
      injection hes with he2
      subst he2
      rw [hout]
      exact ⟨rfl, rfl⟩
    · rw [hx] at hes
      cases hes

/-- Witness for C5: a candidate list whose single candidate lacks a URL, no
fallbacks — selection yields `none` and resolution responds 500. -/
theorem claim_C5_witness :
    pick_format infoAllRejected = none
      ∧ (resolve eiAllRejected 0 (some "https://youtu.be/abcdefghijk") emptyCache).response
        = Response.serverErr "resolve_failed" "No hay formato progresivo compatible" := by
  have hpf : pick_format infoAllRejected = none := by decide
  refine ⟨hpf, ?_⟩
  exact ((claim_C5_fallback_order infoAllRejected (by decide)).2.2.2 hpf eiAllRejected 0
    (some "https://youtu.be/abcdefghijk") emptyCache "https://youtu.be/abcdefghijk"
    "abcdefghijk" rfl (by decide) (by decide) (by decide)
    (fun hit hh => Option.noConfusion hh)).1

/-- Claim C6 counterexample: a successful resolution whose URL carries
`expire=0` creates a payload whose expiry is not in the future even though
the `expire` metadata was present — the invariant as claimed fails. -/
theorem claim_C6_counterexample :
    ∃ p : Payload,
      (resolve eiExpireZero 1000 (some "https://youtu.be/abcdefghijk") emptyCache).response
          = Response.ok p
        ∧ (resolve eiExpireZero 1000
            (some "https://youtu.be/abcdefghijk") emptyCache).extractorCalled = true
        ∧ p.expiresAt = 0
        ∧ ¬ (1000 < p.expiresAt)
        ∧ qsFirst (parse_qsl (urlQuery p.streamUrl)) "expire" = some "0" := by
  refine ⟨⟨"abcdefghijk", "https://cdn.example/video?expire=0", 0, "720p",
    "video/mp4", 1800⟩, ?_, ?_, ?_, ?_, ?_⟩ <;> decide

/-- Claim C6 as amended: a freshly created payload's expiry equals the
integer value of the URL's `expire` parameter when present — with no
guarantee of being in the future — and equals observation time plus exactly
3600 seconds (hence strictly future) when the parameter is absent. -/
theorem claim_C6_amended (ei : String → Except String Info) (now : Int)
    (body : Option String) (cache : Cache) (p : Payload)
    (hok : (resolve ei now body cache).response = Response.ok p)
    (hcalled : (resolve ei now body cache).extractorCalled = true) :
    (∀ v, qsFirst (parse_qsl (urlQuery p.streamUrl)) "expire" = some v →
        pyInt v = some p.expiresAt)
      ∧ (qsFirst (parse_qsl (urlQuery p.streamUrl)) "expire" = none →
          p.expiresAt = now + 3600 ∧ now < p.expiresAt) := by
  rcases resolve_spec ei now body cache (pyStrip (body.getD "")) rfl with
    ⟨_, hout⟩ | ⟨_, _, hout⟩ | ⟨vid, hit, _, _, _, _, hout⟩ |
    ⟨vid, e, _, _, _, _, hout⟩ | ⟨vid, s, x, q, m, _, _, _, hes, hout⟩
  · rw [hout] at hok; cases hok
  · rw [hout] at hok; cases hok
  · rw [hout] at hcalled; cases hcalled
  · rw [hout] at hok; cases hok
  · rw [hout] at hok
    injection hok with hp
    subst hp
    obtain ⟨info, chosen, hei, hpf, hcu, hre, hq, hm⟩ := extract_stream_ok hes
    show (∀ v, qsFirst (parse_qsl (urlQuery s)) "expire" = some v → pyInt v = some x)
      ∧ (qsFirst (parse_qsl (urlQuery s)) "expire" = none → x = now + 3600 ∧ now < x)
    rcases resolveExpiry_ok hre with ⟨v, hv, hp2⟩ | ⟨hnone, hx⟩
    · constructor
      · intro v0 hv0
        rw [hv] at hv0
        injection hv0 with h2
        subst h2
        exact hp2
      · intro hn
        rw [hv] at hn
        cases hn
    · constructor
      · intro v0 hv0
        rw [hnone] at hv0
        cases hv0
      · intro _
        exact ⟨hx, by omega⟩

/-- Witness for C6 amended: a resolution whose URL has no `expire` ends up
with expiry exactly one hour past observation time. -/
theorem claim_C6_amended_witness :
    ((3650 : Int) = 50 + 3600) ∧ ((50 : Int) < 3650) :=
  (claim_C6_amended eiNoExpire 50 (some "https://youtu.be/abcdefghijk") emptyCache
    ⟨"abcdefghijk", "https://cdn.example/plain", 3650, "360", "video/mp4", 1800⟩
    (by decide) (by decide)).2 (by decide)

/-- Claim C7: a fresh cache hit returns the cached payload verbatim, does
not invoke the extraction collaborator, and leaves the cache unchanged. -/
theorem claim_C7_fresh_hit (ei : String → Except String Info) (now : Int)
    (body : Option String) (cache : Cache) (url vid : String) (hit : Payload)
    (hurl : pyStrip (body.getD "") = url) (hne : url ≠ "")
    (hvid : extract_video_id url = some vid) (hhit : cache vid = some hit)
    (hfresh : isFresh hit now REFRESH_GRACE_SECONDS = true) :
    resolve ei now body cache = ⟨Response.ok hit, cache, false⟩ := by
  rcases resolve_spec ei now body cache url hurl with ⟨he, _⟩ | ⟨_, hvn, _⟩ |
    ⟨vid2, hit2, _, hv2, hc2, _, hout⟩ | ⟨vid2, e, _, hv2, hmiss, _, hout⟩ |
    ⟨vid2, s, x, q, m, _, hv2, hmiss, _, hout⟩
  · exact absurd he hne
  · rw [hvid] at hvn; cases hvn
  · rw [hvid] at hv2
    injection hv2 with h2
    subst h2
    rw [hhit] at hc2
    injection hc2 with h3
    subst h3
    exact hout
  · rw [hvid] at hv2
    injection hv2 with h2
    subst h2
    have := hmiss hit hhit
    rw [hfresh] at this
    cases this
  · rw [hvid] at hv2
    injection hv2 with h2
    subst h2
    have := hmiss hit hhit
    rw [hfresh] at this
    cases this

/-- Witness for C7 at a concrete fresh cache entry. -/
theorem claim_C7_witness :
    resolve eiUnreachable 0 (some " https://www.youtube.com/watch?v=dQw4w9WgXcQ ") cacheC7
      = ⟨Response.ok payC7, cacheC7, false⟩ :=
  claim_C7_fresh_hit eiUnreachable 0
    (some " https://www.youtube.com/watch?v=dQw4w9WgXcQ ") cacheC7
    "https://www.youtube.com/watch?v=dQw4w9WgXcQ" "dQw4w9WgXcQ" payC7
    (by decide) (by decide) (by decide) (by decide) (by decide)

/-- Claim C8: the `/resolve` error mapping — 400 `missing_url` for a blank
or absent url, 400 `invalid_youtube_url` when no identifier is extracted,
500 `resolve_failed` carrying the collaborator's diagnostic on failure, and
200 with the resolved fields on success. -/
theorem claim_C8_error_mapping (ei : String → Except String Info) (now : Int)
    (body : Option String) (cache : Cache) :
    (pyStrip (body.getD "") = "" →
        (resolve ei now body cache).response = Response.clientErr "missing_url"
          ∧ ((resolve ei now body cache).response).status = 400)
      ∧ (∀ url, pyStrip (body.getD "") = url → url ≠ "" → extract_video_id url = none →
          (resolve ei now body cache).response = Response.clientErr "invalid_youtube_url"
            ∧ ((resolve ei now body cache).response).status = 400)
      ∧ (∀ url vid e, pyStrip (body.getD "") = url → url ≠ "" →
          extract_video_id url = some vid →
          (∀ hit, cache vid = some hit → isFresh hit now REFRESH_GRACE_SECONDS = false) →
          extract_stream ei now url = Except.error e →
          (resolve ei now body cache).response = Response.serverErr "resolve_failed" e
            ∧ ((resolve ei now body cache).response).status = 500)
      ∧ (∀ url vid s x q m, pyStrip (body.getD "") = url → url ≠ "" →
          extract_video_id url = some vid →
          (∀ hit, cache vid = some hit → isFresh hit now REFRESH_GRACE_SECONDS = false) →
          extract_stream ei now url = Except.ok (s, x, q, m) →
          (resolve ei now body cache).response
              = Response.ok ⟨vid, s, x, q, m, REFRESH_GRACE_SECONDS⟩
            ∧ ((resolve ei now body cache).response).status = 200) := by
  refine ⟨?_, ?_, ?_, ?_⟩
  · intro hblank
    rcases resolve_spec ei now body cache "" hblank with ⟨_, hout⟩ | ⟨hne, _, _⟩ |
      ⟨_, _, hne, _, _, _, _⟩ | ⟨_, _, hne, _, _, _, _⟩ | ⟨_, _, _, _, _, hne, _, _, _, _⟩
    · rw [hout]; exact ⟨rfl, rfl⟩
    all_goals exact absurd rfl hne
  · intro url hurl hne hvid
    rcases resolve_spec ei now body cache url hurl with ⟨he, _⟩ | ⟨_, _, hout⟩ |
      ⟨vid2, hit2, _, hv2, _, _, _⟩ | ⟨vid2, e, _, hv2, _, _, _⟩ |
      ⟨vid2, s, x, q, m, _, hv2, _, _, _⟩
    · exact absurd he hne
    · rw [hout]; exact ⟨rfl, rfl⟩
    all_goals rw [hvid] at hv2; cases hv2
  · intro url vid e hurl hne hvid hmiss herr
    rcases resolve_spec ei now body cache url hurl with ⟨he, _⟩ | ⟨_, hvn, _⟩ |
      ⟨vid2, hit2, _, hv2, hc2, hfr2, _⟩ | ⟨vid2, e2, _, hv2, _, hes, hout⟩ |
      ⟨vid2, s, x, q, m, _, hv2, _, hes, hout⟩
    · exact absurd he hne
    · rw [hvid] at hvn; cases hvn
    · rw [hvid] at hv2
      injection hv2 with h2
      subst h2
      have := hmiss hit2 hc2
      rw [hfr2] at this
      cases this
    · rw [herr] at hes
      injection hes with he2
      subst he2
      rw [hout]
      exact ⟨rfl, rfl⟩
    · rw [herr] at hes
      cases hes
  · intro url vid s x q m hurl hne hvid hmiss hok
    rcases resolve_spec ei now body cache url hurl with ⟨he, _⟩ | ⟨_, hvn, _⟩ |
      ⟨vid2, hit2, _, hv2, hc2, hfr2, _⟩ | ⟨vid2, e2, _, hv2, _, hes, hout⟩ |
      ⟨vid2, s2, x2, q2, m2, _, hv2, _, hes, hout⟩
    · exact absurd he hne
    · rw [hvid] at hvn; cases hvn
    · rw [hvid] at hv2
      injection hv2 with h2
      subst h2
      have := hmiss hit2 hc2
      rw [hfr2] at this
      cases this
    · rw [hok] at hes
      cases hes
    · rw [hvid] at hv2
      injection hv2 with h2
      subst h2
      rw [hok] at hes
      injection hes with h3
      injection h3 with hs h4
      injection h4 with hx h5
      injection h5 with hq hm2
      subst hs; subst hx; subst hq; subst hm2
      rw [hout]
      exact ⟨rfl, rfl⟩

/-- Witness for C8: an absent url field yields 400 `missing_url`. -/
theorem claim_C8_witness :
    (resolve eiUnreachable 0 none emptyCache).response = Response.clientErr "missing_url"
      ∧ ((resolve eiUnreachable 0 none emptyCache).response).status = 400 :=
  (claim_C8_error_mapping eiUnreachable 0 none emptyCache).1 (by decide)

/-- Claim C9: failure atomicity — every non-200 outcome leaves the cache
untouched, and the only cache modification is the successful refresh path
writing the returned payload under its extracted identifier. -/
theorem claim_C9_failure_atomicity (ei : String → Except String Info) (now : Int)
    (body : Option String) (cache : Cache) :
    (((resolve ei now body cache).response).status ≠ 200 →
        (resolve ei now body cache).cache = cache)
      ∧ (∀ p, (resolve ei now body cache).response = Response.ok p →
          ((resolve ei now body cache).cache = cache
              ∧ (resolve ei now body cache).extractorCalled = false)
            ∨ (resolve ei now body cache).cache = cacheWrite cache p.videoId p) := by
  rcases resolve_spec ei now body cache (pyStrip (body.getD "")) rfl with
    ⟨_, hout⟩ | ⟨_, _, hout⟩ | ⟨vid, hit, _, _, _, _, hout⟩ |
    ⟨vid, e, _, _, _, _, hout⟩ | ⟨vid, s, x, q, m, _, _, _, _, hout⟩
  · rw [hout]
    exact ⟨fun _ => rfl, fun p hp => Response.noConfusion hp⟩
  · rw [hout]
    exact ⟨fun _ => rfl, fun p hp => Response.noConfusion hp⟩
  · rw [hout]
    exact ⟨fun hs => absurd rfl hs, fun p hp => Or.inl ⟨rfl, rfl⟩⟩
  · rw [hout]
    exact ⟨fun _ => rfl, fun p hp => Response.noConfusion hp⟩
  · rw [hout]
    refine ⟨fun hs => absurd rfl hs, fun p hp => Or.inr ?_⟩
    injection hp with hp
    subst hp
    rfl

/-- Witness for C9: a failing request (missing url) leaves the cache as it
was. -/
theorem claim_C9_witness :
    (resolve eiUnreachable 0 none emptyCache).cache = emptyCache :=
  (claim_C9_failure_atomicity eiUnreachable 0 none emptyCache).1 (by decide)

end YtResolver
